import Mathlib

/-!
Verification of the session-reconciliation and streaming core of the
Simon chat frontend.  The definitions below are shallow embeddings of the
TypeScript source: the session hook (creation guard and restore from
storage), the chat page session initializer, and the chat panel
send/stream handler in `MessageBubble.tsx`.
-/

namespace Simon

/-- The apostrophe character, used to build string literals of the source
faithfully. -/
def apos : String := Char.toString (Char.ofNat 39)

/-- Message role, from the `BubbleProps` type in `MessageBubble.tsx`. -/
inductive Role where
  | user
  | assistant
deriving DecidableEq, Repr

/-- An attached file reference (the `AttachedFile` interface). -/
structure AttachedFile where
  name : String
  size : Nat
  url : String
  type : String
  asset_id : String
deriving DecidableEq, Repr

/-- A transcript entry (`BubbleProps`): role, content, attachments and the
server-assigned message id used for editing. -/
structure Bubble where
  role : Role
  content : String
  attachedFiles : List AttachedFile := []
  messageId : Option String := none
deriving DecidableEq, Repr

/-- Embedding of JS `String.prototype.trim`: drop leading and trailing
whitespace. -/
def jsTrim (s : String) : String :=
  ⟨((s.data.dropWhile Char.isWhitespace).reverse.dropWhile Char.isWhitespace).reverse⟩

/-- Embedding of JS `String.prototype.toLowerCase` on the characters. -/
def jsToLower (s : String) : String := ⟨s.data.map Char.toLower⟩

/-- Whether the pattern is a prefix of the haystack, on characters. -/
def charsStartWith : List Char → List Char → Bool
  | [], _ => true
  | _ :: _, [] => false
  | p :: ps, h :: hs => p == h && charsStartWith ps hs

/-- Whether the pattern occurs contiguously in the haystack. -/
def charsContain (pat : List Char) : List Char → Bool
  | [] => charsStartWith pat []
  | c :: rest => charsStartWith pat (c :: rest) || charsContain pat rest

/-- Embedding of JS `String.prototype.includes`. -/
def strIncludes (s pat : String) : Bool := charsContain pat.data s.data

/-- JavaScript truthiness of an optional string: `undefined`, `null` and
the empty string are falsy. -/
def jsTruthy : Option String → Bool
  | some s => s != ""
  | none => false

/-- Truthiness of the compound test `s && s.trim()` used on session-id
props: truthy exactly when the string is present and does not trim to the
empty string. -/
def jsTruthyTrim : Option String → Bool
  | some s => jsTrim s != ""
  | none => false

/-! ## Stream decoder (`handleSendMessage` read loop) -/

/-- The JSON payload of one `data: `-prefixed frame, as the consumer
distinguishes it: a content frame with its `done` flag, a metadata frame
carrying an optional `session_id`, or any other JSON object. -/
inductive ParsedFrame where
  | contentFrame (text : String) (done : Bool)
  | metadataFrame (sessionId : Option String)
  | otherFrame
deriving DecidableEq, Repr

/-- One line of the chunked response body: a `data: ` line whose remainder
is valid JSON, a `data: ` line whose remainder fails `JSON.parse`, or a
line without the `data: ` prefix. -/
inductive StreamLine where
  | dataLine (frame : ParsedFrame)
  | badJsonLine
  | plainLine
deriving DecidableEq, Repr

/-- State threaded through the streaming loop of `handleSendMessage`: the
accumulated `assistantContent` buffer, the rendered message list, the
captured metadata session id, and the `streamComplete` flag. -/
structure StreamState where
  assistantContent : String
  messages : List Bubble
  capturedSessionId : Option String
  streamComplete : Bool
deriving DecidableEq, Repr

/-- Replace the last element of the message list (the JS assignment
`newMessages[newMessages.length - 1] = b`); on an empty list the
assignment reaches no array index. -/
def setLast (ms : List Bubble) (b : Bubble) : List Bubble :=
  match ms with
  | [] => []
  | _ :: _ => ms.dropLast ++ [b]

/-- One iteration of the line loop in `handleSendMessage`: lines without
the `data: ` prefix and unparseable frames are skipped; a content frame
appends its text to the buffer, rewrites the last message with the buffer,
and takes `streamComplete` from its `done` flag; a metadata frame with a
truthy `session_id` captures it.  Once `streamComplete` is set, no later
line is processed (the `break` plus the `while` condition). -/
def processLine (s : StreamState) (l : StreamLine) : StreamState :=
  if s.streamComplete then s else
  match l with
  | .plainLine => s
  | .badJsonLine => s
  | .dataLine (.contentFrame t d) =>
      let newContent := s.assistantContent ++ t
      { s with assistantContent := newContent,
               messages := setLast s.messages { role := .assistant, content := newContent },
               streamComplete := d }
  | .dataLine (.metadataFrame sid) =>
      if jsTruthy sid then { s with capturedSessionId := sid } else s
  | .dataLine .otherFrame => s

/-- Folding the line loop over the received lines in receipt order. -/
def processLines (s : StreamState) (ls : List StreamLine) : StreamState :=
  ls.foldl processLine s

/-- Content of the last message of a transcript (empty for an empty list). -/
def lastContent (ms : List Bubble) : String :=
  match ms.getLast? with
  | some b => b.content
  | none => ""

/-- The empty assistant placeholder appended before the stream starts. -/
def assistantPlaceholder : Bubble := { role := .assistant, content := "" }

/-- Streaming state at the start of a stream: empty buffer, the transcript
with the placeholder appended, no captured metadata, not complete. -/
def streamStart (ms : List Bubble) : StreamState :=
  { assistantContent := "", messages := ms ++ [assistantPlaceholder],
    capturedSessionId := none, streamComplete := false }

/-- A list of pure content frames, each given by its text and done flag. -/
def contentLines (frames : List (String × Bool)) : List StreamLine :=
  frames.map fun p => .dataLine (.contentFrame p.1 p.2)

/-! ## Send handler (`handleSendMessage` synchronous phase) -/

/-- The completion phrase list checked against the lower-cased finalized
assistant content. -/
def completionPhrases : List String :=
  ["this is perfect",
   "i" ++ apos ++ "m ready",
   "let" ++ apos ++ "s go with this",
   "this is good",
   "content is ready",
   "we" ++ apos ++ "ve reached the end",
   "the end",
   "conclusion",
   "would you like to create another",
   "would you like to start another"]

/-- Completion heuristic: the lower-cased content includes one of the
fixed phrases (`[...].some(k => lower.includes(k))`). -/
def detectCompletion (content : String) : Bool :=
  completionPhrases.any fun k => strIncludes (jsToLower content) k

/-- New value of the `storyCompleted` flag after a stream finalizes: set
when a completion phrase is detected, otherwise left as it was. -/
def postStreamCompleted (prev : Bool) (assistantContent : String) : Bool :=
  prev || detectCompletion assistantContent

/-- The canned assistant prompt shown instead of contacting the backend
once the conversation is completed, depending on authentication. -/
def cannedPrompt (isAuthenticated : Bool) : String :=
  if isAuthenticated then
    "Your content is ready! 🎉 To create new content, please click the \"New Project\" button in the sidebar."
  else
    "Your content is ready! 🎉 To create unlimited content ideas and save your progress, please sign up or log in. It"
      ++ apos ++ "s free and takes just a moment!"

/-- The initial welcome message of a fresh conversation. -/
def welcomeMessage : Bubble :=
  { role := .assistant,
    content := "Hey! 👋 I" ++ apos ++ "m your content creation assistant! Let"
      ++ apos ++ "s create some killer short-form videos for Instagram and TikTok. What topic are you passionate about sharing today?" }

/-- The user message built from the send text and attachments. -/
def mkUserMessage (text : String) (files : List AttachedFile) : Bubble :=
  { role := .user, content := text, attachedFiles := files }

/-- Relevant component state of `ChatPanel` entering `handleSendMessage`. -/
structure ChatState where
  messages : List Bubble
  isLoading : Bool
  storyCompleted : Bool
  isEditing : Bool
  editMessageIndex : Option Nat
  editMessageId : Option String
deriving DecidableEq, Repr

/-- Observable outcome of the synchronous head of `handleSendMessage`:
an early-return no-op (empty text or a send in flight), the completed-story
interception with its resulting transcript, the unauthenticated abort, or
proceeding to the network with the prepared transcript and the
`edit_from_message_id` value of the request body. -/
inductive SendAction where
  | noop
  | intercept (newMessages : List Bubble)
  | authAbort
  | proceed (transcript : List Bubble) (editFrom : Option String)
deriving DecidableEq, Repr

/-- Transcript after appending the user message: in edit mode with a
target index the list is truncated to the prefix strictly before the
index, otherwise the message is appended. -/
def truncateForEdit (isEditing : Bool) (idx : Option Nat) (ms : List Bubble)
    (u : Bubble) : List Bubble :=
  match isEditing, idx with
  | true, some i => ms.take i ++ [u]
  | _, _ => ms ++ [u]

/-- The `edit_from_message_id` field of the request body:
`(isEditing && editMessageId) ? editMessageId : undefined`. -/
def editFromMessageId (isEditing : Bool) (mid : Option String) : Option String :=
  if isEditing && jsTruthy mid then mid else none

/-- The synchronous head of `handleSendMessage`: guard on empty text or a
send in flight, interception when the story is completed, the
authentication requirement, then user-message append (with edit
truncation) and the empty assistant placeholder before the network call. -/
def sendPrepare (s : ChatState) (isAuthenticated : Bool) (text : String)
    (files : List AttachedFile) : SendAction :=
  if jsTrim text = "" ∨ s.isLoading then .noop
  else if s.storyCompleted then
    .intercept (s.messages ++
      [mkUserMessage text files,
       { role := .assistant, content := cannedPrompt isAuthenticated }])
  else if !isAuthenticated then .authAbort
  else
    .proceed
      (truncateForEdit s.isEditing s.editMessageIndex s.messages (mkUserMessage text files)
        ++ [assistantPlaceholder])
      (editFromMessageId s.isEditing s.editMessageId)

/-- Whether the outcome reaches the backend chat call. -/
def actionCallsBackend : SendAction → Bool
  | .proceed _ _ => true
  | _ => false

/-- Message list after the synchronous head, given the outcome. -/
def actionMessages (a : SendAction) (ms : List Bubble) : List Bubble :=
  match a with
  | .noop => ms
  | .authAbort => ms
  | .intercept ns => ns
  | .proceed t _ => t

/-- The new-conversation action `handleNewStory`: for an authenticated
user it clears the completion flag and resets the transcript to the
welcome message; otherwise it redirects to login and changes nothing. -/
def handleNewStory (s : ChatState) (isAuthenticated : Bool) : ChatState :=
  if isAuthenticated then
    { s with storyCompleted := false, messages := [welcomeMessage] }
  else s

/-! ## Post-stream patches (empty stream, network failure) -/

/-- The fixed fallback notice substituted when the stream ends with an
empty accumulated buffer. -/
def fallbackNotice : String :=
  "I" ++ apos ++ "m sorry, I didn" ++ apos ++ "t receive a proper response. Please try again."

/-- The default user-facing error message of the catch block. -/
def defaultErrorContent : String :=
  "I" ++ apos ++ "m sorry, I encountered an error. Please make sure the backend server is running and try again."

/-- The session-specific error message of the catch block. -/
def sessionErrorContent : String :=
  "Session error: Please refresh the page and try again. Your conversation will be preserved."

/-- Error content selection: the session variant when the error message
includes the no-session marker, otherwise the default. -/
def errorContentFor (mentionsNoSessionId : Bool) : String :=
  if mentionsNoSessionId then sessionErrorContent else defaultErrorContent

/-- Empty-stream patch: when the accumulated buffer trims to the empty
string, the last message is replaced with the fallback notice. -/
def emptyStreamPatch (assistantContent : String) (ms : List Bubble) : List Bubble :=
  if jsTrim assistantContent = "" then
    setLast ms { role := .assistant, content := fallbackNotice }
  else ms

/-- Catch-block patch: the last message is replaced with the user-facing
error message, whatever the failure was. -/
def catchPatch (mentionsNoSessionId : Bool) (ms : List Bubble) : List Bubble :=
  setLast ms { role := .assistant, content := errorContentFor mentionsNoSessionId }

/-! ## Session restore from storage (`useSession.getInitialSession`) -/

/-- A persisted localStorage cell: absent, present but failing
`JSON.parse`, or a parsed value. -/
inductive Cell (α : Type) where
  | absent
  | corrupt
  | value (v : α)
deriving DecidableEq, Repr

/-- The parsed persisted session record under the `chat_session` key. -/
structure StoredSession where
  sessionId : Option String
  userId : Option String
  isAuthenticated : Bool
deriving DecidableEq, Repr

/-- The parsed persisted user record under the `user` key. -/
structure UserRecord where
  user_id : String
deriving DecidableEq, Repr

/-- The session state produced by the hook initializer. -/
structure SessionState where
  sessionId : Option String
  isAuthenticated : Bool
  isLoading : Bool
deriving DecidableEq, Repr

/-- The hook initializer `getInitialSession`: an explicit non-blank
session-id prop wins; unauthenticated users get no session; otherwise the
stored record is restored, except that a stored record whose `userId` is
present and differs from the current user id is removed (the boolean of
the result records whether the `chat_session` key was removed) and an
empty session id is returned.  A `JSON.parse` failure anywhere in the
try block removes the key and falls through to the loading state. -/
def getInitialSession (propSessionId : Option String) (isAuthenticated : Bool)
    (stored : Cell StoredSession) (userCell : Cell UserRecord) :
    SessionState × Bool :=
  if jsTruthyTrim propSessionId then
    ({ sessionId := propSessionId, isAuthenticated := isAuthenticated, isLoading := false }, false)
  else if !isAuthenticated then
    ({ sessionId := none, isAuthenticated := false, isLoading := false }, false)
  else
    match stored with
    | .absent => ({ sessionId := none, isAuthenticated := isAuthenticated, isLoading := true }, false)
    | .corrupt => ({ sessionId := none, isAuthenticated := isAuthenticated, isLoading := true }, true)
    | .value parsed =>
      if jsTruthy parsed.sessionId then
        match userCell with
        | .value u =>
          if jsTruthy parsed.userId ∧ parsed.userId ≠ some u.user_id then
            ({ sessionId := some "", isAuthenticated := false, isLoading := false }, true)
          else
            ({ sessionId := parsed.sessionId, isAuthenticated := parsed.isAuthenticated,
               isLoading := false }, false)
        | .corrupt =>
            ({ sessionId := none, isAuthenticated := isAuthenticated, isLoading := true }, true)
        | .absent =>
            ({ sessionId := parsed.sessionId, isAuthenticated := parsed.isAuthenticated,
               isLoading := false }, false)
      else
        ({ sessionId := none, isAuthenticated := isAuthenticated, isLoading := true }, false)

/-! ## Single-flight session creation (`useSession.createSession`) -/

/-- Shared creation state: the module-level
`globalSessionCreationInProgress` flag, the per-instance
`sessionCreationInProgress` refs (indexed by hook instance), and the
number of backend creation calls made. -/
structure GuardState where
  globalFlag : Bool
  instFlag : Nat → Bool
  backendCalls : Nat

/-- One caller of `createSession`: its hook instance, the session-id prop,
the session id already in its state, and its authentication. -/
structure Caller where
  inst : Nat
  propSessionId : Option String
  stateSessionId : Option String
  isAuthenticated : Bool

/-- The synchronous entry of `createSession`, up to its first suspension
point: the prop and state double-checks, the per-instance and global
guard check, then setting both flags and (for an authenticated caller)
beginning the backend creation call.  The boolean reports whether this
caller entered the critical section. -/
def tryEnter (s : GuardState) (c : Caller) : GuardState × Bool :=
  if jsTruthyTrim c.propSessionId then (s, false)
  else if jsTruthyTrim c.stateSessionId then (s, false)
  else if s.instFlag c.inst || s.globalFlag then (s, false)
  else
    ({ globalFlag := true,
       instFlag := Function.update s.instFlag c.inst true,
       backendCalls := if c.isAuthenticated then s.backendCalls + 1 else s.backendCalls },
     true)

/-- The `finally` block of `createSession`: both flags are cleared; the
outcome of the attempt (success or failure) is not consulted. -/
def finallyClear (s : GuardState) (inst : Nat) (_outcome : Bool) : GuardState :=
  { s with globalFlag := false, instFlag := Function.update s.instFlag inst false }

/-- A batch of callers arriving while none of them has yet reached its
`finally` block: each runs the synchronous entry in turn.  Returns the
resulting state and how many callers entered the critical section. -/
def enterAll (s : GuardState) : List Caller → GuardState × Nat
  | [] => (s, 0)
  | c :: cs =>
    ((enterAll (tryEnter s c).1 cs).1,
     (if (tryEnter s c).2 then 1 else 0) + (enterAll (tryEnter s c).1 cs).2)

/-- The all-clear per-instance flag assignment (no ref set). -/
def allClear : Nat → Bool := fun _ => false

/-! ## Page-level session initialization (`chat/page.tsx`) -/

/-- Outcome of one backend most-recent-session lookup (after retries):
overall failure, or a list of session ids, most recent first. -/
inductive BackendFetch where
  | failure
  | success (sessions : List String)
deriving DecidableEq, Repr

/-- Where the page initializer got its session, if anywhere. -/
inductive RestoreOutcome where
  | notReady
  | alreadyRestored
  | skippedNewChat
  | alreadySet (id : String)
  | fromStore (id : String)
  | fromBackend (id : String)
  | noSession
deriving DecidableEq, Repr

/-- The backend branch of the page initializer: adopt the most recent
session when the lookup succeeds with a truthy first id. -/
def backendLookup : BackendFetch → RestoreOutcome
  | .failure => .noSession
  | .success sessions =>
    match sessions.head? with
    | some id => if id != "" then .fromBackend id else .noSession
    | none => .noSession

/-- The page initializer `initializeSession`: wait for authentication,
run at most once, short-circuit on the explicit empty session id (new
chat), otherwise restore from the store when it holds a truthy id, else
fall back to the backend most-recent-session lookup; a truthy in-memory
id is kept as is. -/
def initializeSession (authLoading isAuthenticated hasRestored : Bool)
    (currentSessionId : Option String) (stored : Cell StoredSession)
    (backend : BackendFetch) : RestoreOutcome :=
  if authLoading || !isAuthenticated then .notReady
  else if hasRestored then .alreadyRestored
  else if currentSessionId = some "" then .skippedNewChat
  else if !jsTruthy currentSessionId then
    match stored with
    | .value parsed =>
      if jsTruthy parsed.sessionId then .fromStore (parsed.sessionId.getD "")
      else backendLookup backend
    | .corrupt => backendLookup backend
    | .absent => backendLookup backend
  else .alreadySet (currentSessionId.getD "")

/-! ## Helper lemmas about the stream decoder -/

theorem setLast_eq (ms : List Bubble) (b : Bubble) (h : ms ≠ []) :
    setLast ms b = ms.dropLast ++ [b] := by
  cases ms with
  | nil => exact absurd rfl h
  | cons x xs => rfl

theorem setLast_ne_nil (ms : List Bubble) (b : Bubble) (h : ms ≠ []) :
    setLast ms b ≠ [] := by
  rw [setLast_eq ms b h]
  simp

theorem dropLast_setLast (ms : List Bubble) (b : Bubble) (h : ms ≠ []) :
    (setLast ms b).dropLast = ms.dropLast := by
  rw [setLast_eq ms b h]
  simp

theorem lastContent_setLast (ms : List Bubble) (b : Bubble) (h : ms ≠ []) :
    lastContent (setLast ms b) = b.content := by
  rw [setLast_eq ms b h]
  simp [lastContent]

theorem lastContent_concat (ms : List Bubble) (b : Bubble) :
    lastContent (ms ++ [b]) = b.content := by
  simp [lastContent]

theorem processLine_plain (s : StreamState) : processLine s .plainLine = s := by
  unfold processLine
  split <;> rfl

theorem processLine_badJson (s : StreamState) : processLine s .badJsonLine = s := by
  unfold processLine
  split <;> rfl

theorem processLine_complete (s : StreamState) (l : StreamLine)
    (h : s.streamComplete = true) : processLine s l = s := by
  simp [processLine, h]

theorem processLine_content (s : StreamState) (t : String) (d : Bool)
    (h : s.streamComplete = false) :
    processLine s (.dataLine (.contentFrame t d)) =
      { s with assistantContent := s.assistantContent ++ t,
               messages := setLast s.messages
                 { role := .assistant, content := s.assistantContent ++ t },
               streamComplete := d } := by
  simp [processLine, h]

theorem processLine_len (s : StreamState) (l : StreamLine) :
    s.assistantContent.length ≤ (processLine s l).assistantContent.length := by
  unfold processLine
  split
  · exact le_refl _
  cases l with
  | plainLine => exact le_refl _
  | badJsonLine => exact le_refl _
  | dataLine f =>
    cases f with
    | contentFrame t d => simp [String.length_append]
    | metadataFrame sid =>
      dsimp only
      split <;> exact le_refl _
    | otherFrame => exact le_refl _

/-- Invariant maintained by the stream loop: the transcript is nonempty,
everything but its last entry is the pre-stream transcript, and the last
entry renders the accumulated buffer. -/
def StreamInv (ms0 : List Bubble) (s : StreamState) : Prop :=
  s.messages ≠ [] ∧ s.messages.dropLast = ms0 ∧ lastContent s.messages = s.assistantContent

theorem streamInv_start (ms : List Bubble) : StreamInv ms (streamStart ms) := by
  refine ⟨by simp [streamStart], by simp [streamStart], ?_⟩
  simp [streamStart, lastContent, assistantPlaceholder]

theorem streamInv_processLine (ms0 : List Bubble) (s : StreamState) (l : StreamLine)
    (h : StreamInv ms0 s) : StreamInv ms0 (processLine s l) := by
  obtain ⟨h1, h2, h3⟩ := h
  unfold processLine
  split
  · exact ⟨h1, h2, h3⟩
  cases l with
  | plainLine => exact ⟨h1, h2, h3⟩
  | badJsonLine => exact ⟨h1, h2, h3⟩
  | dataLine f =>
    cases f with
    | contentFrame t d =>
      refine ⟨setLast_ne_nil _ _ h1, ?_, ?_⟩
      · rw [dropLast_setLast _ _ h1]
        exact h2
      · rw [lastContent_setLast _ _ h1]
    | metadataFrame sid =>
      dsimp only
      split <;> exact ⟨h1, h2, h3⟩
    | otherFrame => exact ⟨h1, h2, h3⟩

theorem processLines_cons (s : StreamState) (l : StreamLine) (ls : List StreamLine) :
    processLines s (l :: ls) = processLines (processLine s l) ls := rfl

theorem processLines_append (s : StreamState) (as bs : List StreamLine) :
    processLines s (as ++ bs) = processLines (processLines s as) bs := by
  simp [processLines, List.foldl_append]

theorem streamInv_processLines (ms0 : List Bubble) (s : StreamState) (ls : List StreamLine)
    (h : StreamInv ms0 s) : StreamInv ms0 (processLines s ls) := by
  induction ls generalizing s with
  | nil => exact h
  | cons l ls ih => exact ih _ (streamInv_processLine _ _ _ h)

theorem processLines_of_complete (s : StreamState) (ls : List StreamLine)
    (h : s.streamComplete = true) : processLines s ls = s := by
  induction ls with
  | nil => rfl
  | cons l ls ih =>
    rw [processLines_cons, processLine_complete s l h]
    exact ih

theorem processLines_len_mono (s : StreamState) (ls : List StreamLine) :
    s.assistantContent.length ≤ (processLines s ls).assistantContent.length := by
  induction ls generalizing s with
  | nil => exact le_refl _
  | cons l ls ih => exact le_trans (processLine_len s l) (ih _)

/-- All frames of a prefix of content frames carry `done:false`. -/
def allNotDone (body : List (String × Bool)) : Prop := ∀ p ∈ body, p.2 = false

instance (body : List (String × Bool)) : Decidable (allNotDone body) :=
  inferInstanceAs (Decidable (∀ p ∈ body, p.2 = false))

theorem processLines_content_concat (body : List (String × Bool)) (t : String) (d : Bool)
    (s : StreamState) (hs : s.streamComplete = false) (hmsg : s.messages ≠ [])
    (hbody : allNotDone body) :
    (processLines s (contentLines (body ++ [(t, d)]))).assistantContent
      = (body ++ [(t, d)]).foldl (fun acc p => acc ++ p.1) s.assistantContent ∧
    lastContent (processLines s (contentLines (body ++ [(t, d)]))).messages
      = (processLines s (contentLines (body ++ [(t, d)]))).assistantContent ∧
    (processLines s (contentLines (body ++ [(t, d)]))).streamComplete = d := by
  induction body generalizing s with
  | nil =>
    have h1 : contentLines (([] : List (String × Bool)) ++ [(t, d)])
        = [.dataLine (.contentFrame t d)] := rfl
    rw [h1]
    have h2 : processLines s [.dataLine (.contentFrame t d)]
        = processLine s (.dataLine (.contentFrame t d)) := rfl
    rw [h2, processLine_content s t d hs]
    exact ⟨rfl, lastContent_setLast _ _ hmsg, rfl⟩
  | cons p rest ih =>
    obtain ⟨t0, d0⟩ := p
    have hd0 : d0 = false := hbody (t0, d0) (List.mem_cons_self _ _)
    subst hd0
    have h1 : contentLines (((t0, false) :: rest) ++ [(t, d)])
        = .dataLine (.contentFrame t0 false) :: contentLines (rest ++ [(t, d)]) := rfl
    rw [h1, processLines_cons, processLine_content s t0 false hs]
    exact ih { s with assistantContent := s.assistantContent ++ t0,
                      messages := setLast s.messages
                        { role := .assistant, content := s.assistantContent ++ t0 },
                      streamComplete := false }
      rfl (setLast_ne_nil _ _ hmsg) (fun q hq => hbody q (List.mem_cons_of_mem _ hq))

/-- C2: for a stream of content frames in which only the final frame may
carry `done:true`, the final accumulated buffer and the rendered last
message both equal the concatenation, in receipt order, of the frames'
content fields; the final `done` flag ends decoding, after which any
further lines are ignored.  In particular the two-frame stream
`"Hi"` (done:false) then `" there"` (done:true) yields `"Hi there"`
(see the witness). -/
theorem stream_content_concatenation (ms : List Bubble) (body : List (String × Bool))
    (t : String) (d : Bool) (extra : List StreamLine) (hbody : allNotDone body) :
    (processLines (streamStart ms) (contentLines (body ++ [(t, d)]))).assistantContent
      = (body ++ [(t, d)]).foldl (fun acc p => acc ++ p.1) "" ∧
    lastContent (processLines (streamStart ms) (contentLines (body ++ [(t, d)]))).messages
      = (body ++ [(t, d)]).foldl (fun acc p => acc ++ p.1) "" ∧
    (processLines (streamStart ms) (contentLines (body ++ [(t, d)]))).streamComplete = d ∧
    processLines (streamStart ms) (contentLines (body ++ [(t, true)]) ++ extra)
      = processLines (streamStart ms) (contentLines (body ++ [(t, true)])) := by
  have h := processLines_content_concat body t d (streamStart ms) rfl
    (by simp [streamStart]) hbody
  have htrue := processLines_content_concat body t true (streamStart ms) rfl
    (by simp [streamStart]) hbody
  refine ⟨h.1, ?_, h.2.2, ?_⟩
  · rw [h.2.1, h.1]
    rfl
  · rw [processLines_append, processLines_of_complete _ _ htrue.2.2]

/-- Witness for C2 at the specification scenario: frames `"Hi"` (not done)
then `" there"` (done) from a fresh transcript yield `"Hi there"`. -/
theorem stream_content_concatenation_witness :
    allNotDone [("Hi", false)] ∧
    ((processLines (streamStart [welcomeMessage])
        (contentLines ([("Hi", false)] ++ [(" there", true)]))).assistantContent
      = ([("Hi", false)] ++ [(" there", true)]).foldl (fun acc p => acc ++ p.1) "" ∧
     lastContent (processLines (streamStart [welcomeMessage])
        (contentLines ([("Hi", false)] ++ [(" there", true)]))).messages
      = ([("Hi", false)] ++ [(" there", true)]).foldl (fun acc p => acc ++ p.1) "" ∧
     (processLines (streamStart [welcomeMessage])
        (contentLines ([("Hi", false)] ++ [(" there", true)]))).streamComplete = true ∧
     processLines (streamStart [welcomeMessage])
        (contentLines ([("Hi", false)] ++ [(" there", true)]) ++ [.badJsonLine])
      = processLines (streamStart [welcomeMessage])
        (contentLines ([("Hi", false)] ++ [(" there", true)]))) ∧
    lastContent (processLines (streamStart [welcomeMessage])
        (contentLines ([("Hi", false)] ++ [(" there", true)]))).messages = "Hi there" :=
  ⟨by decide,
   stream_content_concatenation [welcomeMessage] [("Hi", false)] " there" true
     [.badJsonLine] (by decide),
   by decide⟩

/-- C3: during a single stream, the rendered content of the last message
only grows: after each processed line its length is at least the length
before, and the messages strictly before the last are never touched (they
stay exactly the pre-stream transcript). -/
theorem monotonic_streaming (ms : List Bubble) (lines : List StreamLine) (k : Nat)
    (hk : k < lines.length) :
    (lastContent (processLines (streamStart ms) (lines.take k)).messages).length ≤
      (lastContent (processLines (streamStart ms) (lines.take (k + 1))).messages).length ∧
    (processLines (streamStart ms) (lines.take (k + 1))).messages.dropLast =
      (processLines (streamStart ms) (lines.take k)).messages.dropLast ∧
    (processLines (streamStart ms) lines).messages.dropLast = ms := by
  have invk := streamInv_processLines ms _ (lines.take k) (streamInv_start ms)
  have invk1 := streamInv_processLines ms _ (lines.take (k + 1)) (streamInv_start ms)
  have invAll := streamInv_processLines ms _ lines (streamInv_start ms)
  have htake : lines.take (k + 1) = lines.take k ++ [lines.get ⟨k, hk⟩] := by
    rw [List.take_succ, List.getElem?_eq_getElem hk]
    rfl
  refine ⟨?_, ?_, invAll.2.1⟩
  · rw [invk.2.2, invk1.2.2, htake, processLines_append]
    exact processLine_len _ _
  · rw [invk.2.1, invk1.2.1]

/-- Witness for C3 on a two-frame stream at position 0. -/
theorem monotonic_streaming_witness :
    0 < ([.dataLine (.contentFrame "Hi" false),
          .dataLine (.contentFrame " there" true)] : List StreamLine).length ∧
    ((lastContent (processLines (streamStart [welcomeMessage])
        (([.dataLine (.contentFrame "Hi" false),
           .dataLine (.contentFrame " there" true)] : List StreamLine).take 0)).messages).length ≤
      (lastContent (processLines (streamStart [welcomeMessage])
        (([.dataLine (.contentFrame "Hi" false),
           .dataLine (.contentFrame " there" true)] : List StreamLine).take (0 + 1))).messages).length ∧
     (processLines (streamStart [welcomeMessage])
        (([.dataLine (.contentFrame "Hi" false),
           .dataLine (.contentFrame " there" true)] : List StreamLine).take (0 + 1))).messages.dropLast =
      (processLines (streamStart [welcomeMessage])
        (([.dataLine (.contentFrame "Hi" false),
           .dataLine (.contentFrame " there" true)] : List StreamLine).take 0)).messages.dropLast ∧
     (processLines (streamStart [welcomeMessage])
        ([.dataLine (.contentFrame "Hi" false),
          .dataLine (.contentFrame " there" true)] : List StreamLine)).messages.dropLast =
       [welcomeMessage]) :=
  ⟨by decide,
   monotonic_streaming [welcomeMessage]
     [.dataLine (.contentFrame "Hi" false), .dataLine (.contentFrame " there" true)]
     0 (by decide)⟩

/-- C8: a line without the `data: ` prefix, or a `data: `-prefixed line
whose remainder is not valid JSON, leaves the streaming state (accumulated
content, transcript and session metadata) unchanged, and decoding simply
continues with the remaining lines: deleting such a line from anywhere in
the stream does not change the result, and no line aborts the stream. -/
theorem frame_resilience (s : StreamState) (xs ys : List StreamLine) (l : StreamLine)
    (hl : l = .plainLine ∨ l = .badJsonLine) :
    processLine s l = s ∧
    processLines s (xs ++ l :: ys) = processLines s (xs ++ ys) := by
  have hskip : ∀ u : StreamState, processLine u l = u := by
    intro u
    rcases hl with h | h <;> subst h
    · exact processLine_plain u
    · exact processLine_badJson u
  refine ⟨hskip s, ?_⟩
  rw [processLines_append, processLines_append, processLines_cons, hskip]

/-- Witness for C8: a malformed frame between two content frames is
dropped without affecting the result. -/
theorem frame_resilience_witness :
    (StreamLine.badJsonLine = .plainLine ∨ StreamLine.badJsonLine = .badJsonLine) ∧
    (processLine (streamStart []) .badJsonLine = streamStart [] ∧
     processLines (streamStart [])
        ([.dataLine (.contentFrame "A" false)] ++
          .badJsonLine :: [.dataLine (.contentFrame "B" true)]) =
       processLines (streamStart [])
        ([.dataLine (.contentFrame "A" false)] ++ [.dataLine (.contentFrame "B" true)])) :=
  ⟨Or.inr rfl,
   frame_resilience (streamStart []) [.dataLine (.contentFrame "A" false)]
     [.dataLine (.contentFrame "B" true)] .badJsonLine (Or.inr rfl)⟩

/-- C10: an empty or whitespace-only input text, or a send already in
flight, makes `handleSendMessage` an immediate no-op: the message list is
unchanged and no backend request is initiated. -/
theorem send_guard_noop (s : ChatState) (isAuthenticated : Bool) (text : String)
    (files : List AttachedFile) (h : jsTrim text = "" ∨ s.isLoading = true) :
    sendPrepare s isAuthenticated text files = .noop ∧
    actionMessages (sendPrepare s isAuthenticated text files) s.messages = s.messages ∧
    actionCallsBackend (sendPrepare s isAuthenticated text files) = false := by
  have hc : sendPrepare s isAuthenticated text files = .noop := by
    unfold sendPrepare
    rw [if_pos]
    rcases h with h | h
    · exact Or.inl h
    · exact Or.inr h
  refine ⟨hc, ?_, ?_⟩ <;> rw [hc] <;> rfl

/-- Witness for C10: a whitespace-only text is a no-op. -/
theorem send_guard_noop_witness :
    (jsTrim "   " = "" ∨
      ({ messages := [welcomeMessage], isLoading := false, storyCompleted := false,
         isEditing := false, editMessageIndex := none,
         editMessageId := none } : ChatState).isLoading = true) ∧
    (sendPrepare
        { messages := [welcomeMessage], isLoading := false, storyCompleted := false,
          isEditing := false, editMessageIndex := none, editMessageId := none }
        true "   " [] = .noop ∧
     actionMessages
        (sendPrepare
          { messages := [welcomeMessage], isLoading := false, storyCompleted := false,
            isEditing := false, editMessageIndex := none, editMessageId := none }
          true "   " [])
        [welcomeMessage] = [welcomeMessage] ∧
     actionCallsBackend
        (sendPrepare
          { messages := [welcomeMessage], isLoading := false, storyCompleted := false,
            isEditing := false, editMessageIndex := none, editMessageId := none }
          true "   " []) = false) :=
  ⟨Or.inl (by decide),
   send_guard_noop
     { messages := [welcomeMessage], isLoading := false, storyCompleted := false,
       isEditing := false, editMessageIndex := none, editMessageId := none }
     true "   " [] (Or.inl (by decide))⟩

/-- C4: a send in edit mode with target index `i` within bounds yields the
transcript consisting of exactly the messages strictly before `i`, one new
user message built from the edited text and carried-over attachments, and
one new empty assistant placeholder; the stored database message id is
passed to the network layer as `edit_from_message_id`. -/
theorem edit_truncation (s : ChatState) (i : Nat) (mid text : String)
    (files : List AttachedFile)
    (hEd : s.isEditing = true) (hIdx : s.editMessageIndex = some i)
    (hi : i < s.messages.length)
    (hMid : s.editMessageId = some mid) (hmid : mid ≠ "")
    (htext : jsTrim text ≠ "") (hload : s.isLoading = false)
    (hstory : s.storyCompleted = false) :
    sendPrepare s true text files =
      .proceed (s.messages.take i ++ [mkUserMessage text files, assistantPlaceholder])
        (some mid) ∧
    (s.messages.take i ++ [mkUserMessage text files, assistantPlaceholder]).length = i + 2 := by
  constructor
  · unfold sendPrepare
    rw [if_neg (by simp [htext, hload]), if_neg (by simp [hstory]), if_neg (by simp)]
    rw [hEd, hIdx, hMid]
    unfold truncateForEdit editFromMessageId
    rw [if_pos (by simp [jsTruthy, hmid])]
    rw [List.append_assoc]
    rfl
  · rw [List.length_append, List.length_take]
    simp
    omega

/-- Witness for C4: editing index 1 of a three-message transcript. -/
theorem edit_truncation_witness :
    (({ messages := [welcomeMessage, mkUserMessage "draft" [], assistantPlaceholder],
        isLoading := false, storyCompleted := false, isEditing := true,
        editMessageIndex := some 1, editMessageId := some "db-7" } : ChatState).isEditing = true) ∧
    (1 : Nat) < ([welcomeMessage, mkUserMessage "draft" [], assistantPlaceholder] : List Bubble).length ∧
    ("db-7" : String) ≠ "" ∧
    jsTrim "edited" ≠ "" ∧
    (sendPrepare
        { messages := [welcomeMessage, mkUserMessage "draft" [], assistantPlaceholder],
          isLoading := false, storyCompleted := false, isEditing := true,
          editMessageIndex := some 1, editMessageId := some "db-7" }
        true "edited" [] =
      .proceed (([welcomeMessage, mkUserMessage "draft" [], assistantPlaceholder] : List Bubble).take 1
          ++ [mkUserMessage "edited" [], assistantPlaceholder]) (some "db-7") ∧
     (([welcomeMessage, mkUserMessage "draft" [], assistantPlaceholder] : List Bubble).take 1
          ++ [mkUserMessage "edited" [], assistantPlaceholder]).length = 1 + 2) :=
  ⟨rfl, by decide, by decide, by decide,
   edit_truncation
     { messages := [welcomeMessage, mkUserMessage "draft" [], assistantPlaceholder],
       isLoading := false, storyCompleted := false, isEditing := true,
       editMessageIndex := some 1, editMessageId := some "db-7" }
     1 "db-7" "edited" [] rfl rfl (by decide) rfl (by decide) (by decide) rfl rfl⟩

/-- C7: when the stream ends with a buffer that trims to the empty string,
the last assistant message is replaced with the fixed fallback notice; when
the network call fails, the catch block replaces the last assistant message
with a user-facing error message; in both cases the transcript does not end
with an empty assistant message. -/
theorem empty_stream_fallback (content : String) (b : Bool) (ms : List Bubble)
    (hms : ms ≠ []) (hempty : jsTrim content = "") :
    lastContent (emptyStreamPatch content ms) = fallbackNotice ∧
    lastContent (emptyStreamPatch content ms) ≠ "" ∧
    lastContent (catchPatch b ms) = errorContentFor b ∧
    lastContent (catchPatch b ms) ≠ "" := by
  have h1 : emptyStreamPatch content ms
      = setLast ms { role := .assistant, content := fallbackNotice } := by
    simp [emptyStreamPatch, hempty]
  have h2 : lastContent (catchPatch b ms) = errorContentFor b := by
    unfold catchPatch
    rw [lastContent_setLast _ _ hms]
  refine ⟨?_, ?_, h2, ?_⟩
  · rw [h1, lastContent_setLast _ _ hms]
  · rw [h1, lastContent_setLast _ _ hms]
    decide
  · rw [h2]
    cases b <;> decide

/-- Witness for C7 at an empty stream over a placeholder transcript. -/
theorem empty_stream_fallback_witness :
    ([welcomeMessage, assistantPlaceholder] : List Bubble) ≠ [] ∧
    jsTrim "" = "" ∧
    (lastContent (emptyStreamPatch "" [welcomeMessage, assistantPlaceholder]) = fallbackNotice ∧
     lastContent (emptyStreamPatch "" [welcomeMessage, assistantPlaceholder]) ≠ "" ∧
     lastContent (catchPatch false [welcomeMessage, assistantPlaceholder]) = errorContentFor false ∧
     lastContent (catchPatch false [welcomeMessage, assistantPlaceholder]) ≠ "") :=
  ⟨by decide, by decide,
   empty_stream_fallback "" false [welcomeMessage, assistantPlaceholder] (by decide) (by decide)⟩

/-- C5: detection of a completion phrase in the finalized content sets the
`storyCompleted` flag and the flag is never cleared by stream
finalization; with the flag set, a send is intercepted — the transcript
gains exactly the user message and the canned prompt and the backend is
not contacted, whatever the inputs; the new-conversation action clears
the flag. -/
theorem completion_gating (prev : Bool) (finalContent otherContent : String)
    (s s₂ s₃ : ChatState) (auth auth₂ : Bool) (text text₂ : String)
    (files files₂ : List AttachedFile)
    (hdet : detectCompletion finalContent = true)
    (hdone : s.storyCompleted = true) (htext : jsTrim text ≠ "") (hload : s.isLoading = false)
    (hdone₂ : s₂.storyCompleted = true) :
    postStreamCompleted prev finalContent = true ∧
    postStreamCompleted true otherContent = true ∧
    sendPrepare s auth text files =
      .intercept (s.messages ++ [mkUserMessage text files,
        { role := .assistant, content := cannedPrompt auth }]) ∧
    actionCallsBackend (sendPrepare s₂ auth₂ text₂ files₂) = false ∧
    (handleNewStory s₃ true).storyCompleted = false := by
  refine ⟨?_, ?_, ?_, ?_, ?_⟩
  · simp [postStreamCompleted, hdet]
  · simp [postStreamCompleted]
  · unfold sendPrepare
    rw [if_neg (by simp [htext, hload]), if_pos (by simp [hdone])]
  · unfold sendPrepare
    by_cases hguard : jsTrim text₂ = "" ∨ s₂.isLoading = true
    · rw [if_pos hguard]
      rfl
    · rw [if_neg hguard, if_pos (by simp [hdone₂])]
      rfl
  · simp [handleNewStory]

/-- Witness for C5: a content with the phrase "the end" gates further
sends onto the canned prompt, and the new-conversation action clears the
gate. -/
theorem completion_gating_witness :
    detectCompletion "And that, friends, is THE END." = true ∧
    (jsTrim "Tell me more" ≠ "") ∧
    (postStreamCompleted false "And that, friends, is THE END." = true ∧
     postStreamCompleted true "anything" = true ∧
     sendPrepare
        { messages := [welcomeMessage], isLoading := false, storyCompleted := true,
          isEditing := false, editMessageIndex := none, editMessageId := none }
        true "Tell me more" [] =
       .intercept ([welcomeMessage] ++ [mkUserMessage "Tell me more" [],
         { role := .assistant, content := cannedPrompt true }]) ∧
     actionCallsBackend (sendPrepare
        { messages := [welcomeMessage], isLoading := false, storyCompleted := true,
          isEditing := false, editMessageIndex := none, editMessageId := none }
        false "" []) = false ∧
     (handleNewStory
        { messages := [welcomeMessage], isLoading := false, storyCompleted := true,
          isEditing := false, editMessageIndex := none, editMessageId := none }
        true).storyCompleted = false) :=
  ⟨by decide, by decide,
   completion_gating false "And that, friends, is THE END." "anything"
     { messages := [welcomeMessage], isLoading := false, storyCompleted := true,
       isEditing := false, editMessageIndex := none, editMessageId := none }
     { messages := [welcomeMessage], isLoading := false, storyCompleted := true,
       isEditing := false, editMessageIndex := none, editMessageId := none }
     { messages := [welcomeMessage], isLoading := false, storyCompleted := true,
       isEditing := false, editMessageIndex := none, editMessageId := none }
     true false "Tell me more" "" [] []
     (by decide) rfl (by decide) rfl rfl⟩

/-- C6: a stored session record whose `userId` is present and differs from
the current user id is never reused — the record is removed and resolution
yields no usable session id from the store; and for well-formed stored and
user records, that mismatch is the sole trigger for removing the stored
record. -/
theorem user_scoping (prop : Option String) (p q : StoredSession) (u v : UserRecord)
    (hprop : jsTruthyTrim prop = false)
    (hsid : jsTruthy p.sessionId = true)
    (huid : jsTruthy p.userId = true)
    (hne : p.userId ≠ some u.user_id) :
    jsTruthy (getInitialSession prop true (.value p) (.value u)).1.sessionId = false ∧
    (getInitialSession prop true (.value p) (.value u)).1.sessionId ≠ p.sessionId ∧
    (getInitialSession prop true (.value p) (.value u)).2 = true ∧
    ((getInitialSession prop true (.value q) (.value v)).2 = true ↔
      (jsTruthy q.sessionId = true ∧ jsTruthy q.userId = true ∧ q.userId ≠ some v.user_id)) := by
  have hmain : getInitialSession prop true (.value p) (.value u)
      = ({ sessionId := some "", isAuthenticated := false, isLoading := false }, true) := by
    unfold getInitialSession
    rw [if_neg (by simp [hprop]), if_neg (by simp)]
    dsimp only
    rw [if_pos hsid, if_pos ⟨huid, hne⟩]
  refine ⟨by rw [hmain]; rfl, ?_, by rw [hmain], ?_⟩
  · rw [hmain]
    dsimp only
    intro hcontra
    cases hp : p.sessionId with
    | none => rw [hp] at hsid; exact absurd hsid (by simp [jsTruthy])
    | some sid =>
      rw [hp] at hcontra
      have hsid2 : sid ≠ "" := by
        rw [hp] at hsid
        simpa [jsTruthy] using hsid
      exact hsid2 (Option.some_injective _ hcontra.symm)
  · unfold getInitialSession
    rw [if_neg (by simp [hprop]), if_neg (by simp)]
    dsimp only
    by_cases hq : jsTruthy q.sessionId = true
    · rw [if_pos hq]
      by_cases hm : jsTruthy q.userId = true ∧ q.userId ≠ some v.user_id
      · rw [if_pos hm]
        simp [hq, hm]
      · rw [if_neg hm]
        simp [hq, hm]
    · rw [if_neg hq]
      simp [hq]

/-- Witness for C6: a stored session of user uA against active user uB is
discarded, while a matching record is kept. -/
theorem user_scoping_witness :
    jsTruthyTrim none = false ∧
    jsTruthy
      ({ sessionId := some "sess-1", userId := some "uA",
         isAuthenticated := true } : StoredSession).sessionId = true ∧
    jsTruthy
      ({ sessionId := some "sess-1", userId := some "uA",
         isAuthenticated := true } : StoredSession).userId = true ∧
    ({ sessionId := some "sess-1", userId := some "uA",
       isAuthenticated := true } : StoredSession).userId ≠
      some ({ user_id := "uB" } : UserRecord).user_id ∧
    (jsTruthy (getInitialSession none true
        (.value { sessionId := some "sess-1", userId := some "uA", isAuthenticated := true })
        (.value { user_id := "uB" })).1.sessionId = false ∧
     (getInitialSession none true
        (.value { sessionId := some "sess-1", userId := some "uA", isAuthenticated := true })
        (.value { user_id := "uB" })).1.sessionId ≠
       ({ sessionId := some "sess-1", userId := some "uA",
          isAuthenticated := true } : StoredSession).sessionId ∧
     (getInitialSession none true
        (.value { sessionId := some "sess-1", userId := some "uA", isAuthenticated := true })
        (.value { user_id := "uB" })).2 = true ∧
     ((getInitialSession none true
        (.value { sessionId := some "sess-2", userId := some "uB", isAuthenticated := true })
        (.value { user_id := "uB" })).2 = true ↔
       (jsTruthy
          ({ sessionId := some "sess-2", userId := some "uB",
             isAuthenticated := true } : StoredSession).sessionId = true ∧
        jsTruthy
          ({ sessionId := some "sess-2", userId := some "uB",
             isAuthenticated := true } : StoredSession).userId = true ∧
        ({ sessionId := some "sess-2", userId := some "uB",
           isAuthenticated := true } : StoredSession).userId ≠
          some ({ user_id := "uB" } : UserRecord).user_id))) :=
  ⟨rfl, by decide, by decide, by decide,
   user_scoping none
     { sessionId := some "sess-1", userId := some "uA", isAuthenticated := true }
     { sessionId := some "sess-2", userId := some "uB", isAuthenticated := true }
     { user_id := "uB" } { user_id := "uB" }
     rfl (by decide) (by decide) (by decide)⟩

/-! ## Single-flight lemmas -/

theorem tryEnter_guard (s : GuardState) (c : Caller)
    (h : s.globalFlag = true ∨ s.instFlag c.inst = true) : tryEnter s c = (s, false) := by
  unfold tryEnter
  split
  · rfl
  split
  · rfl
  split
  · rfl
  · rename_i h3
    exfalso
    apply h3
    rcases h with h | h <;> simp [h]

theorem tryEnter_cases (s : GuardState) (c : Caller) :
    tryEnter s c = (s, false) ∨
    ((tryEnter s c).2 = true ∧ (tryEnter s c).1.globalFlag = true ∧
     (tryEnter s c).1.instFlag c.inst = true ∧
     (tryEnter s c).1.backendCalls ≤ s.backendCalls + 1) := by
  unfold tryEnter
  split
  · exact Or.inl rfl
  split
  · exact Or.inl rfl
  split
  · exact Or.inl rfl
  · refine Or.inr ⟨rfl, rfl, ?_, ?_⟩
    · simp
    · dsimp only
      split <;> omega

theorem enterAll_blocked (s : GuardState) (cs : List Caller) (h : s.globalFlag = true) :
    enterAll s cs = (s, 0) := by
  induction cs with
  | nil => rfl
  | cons c cs ih =>
    unfold enterAll
    rw [tryEnter_guard s c (Or.inl h)]
    simpa using ih

theorem enterAll_single (s : GuardState) (cs : List Caller) (h : s.globalFlag = false) :
    (enterAll s cs).2 ≤ 1 ∧ (enterAll s cs).1.backendCalls ≤ s.backendCalls + 1 := by
  induction cs generalizing s with
  | nil => exact ⟨by simp [enterAll], by simp [enterAll]⟩
  | cons c cs ih =>
    rcases tryEnter_cases s c with h1 | h1
    · have hih := ih s h
      unfold enterAll
      rw [h1]
      constructor
      · simpa using hih.1
      · simpa using hih.2
    · have hb := enterAll_blocked (tryEnter s c).1 cs h1.2.1
      unfold enterAll
      rw [h1.1, hb]
      constructor
      · simp
      · simpa using h1.2.2.2

/-- C1: while a creation call is in flight (the module-level flag set, or
the per-instance ref of the caller's own instance set), `createSession`
returns without entering the creation section; a batch of concurrent
callers starting from an idle guard makes at most one backend creation
call; an entering caller has both flags set before the creation request
begins; and the `finally` block clears both flags regardless of the
outcome of the attempt. -/
theorem createSession_single_flight (s₁ s₂ s₃ s₄ : GuardState) (c₁ c₃ : Caller)
    (cs : List Caller) (i : Nat) (o₁ o₂ : Bool)
    (h₁ : s₁.globalFlag = true ∨ s₁.instFlag c₁.inst = true)
    (h₂ : s₂.globalFlag = false)
    (h₃ : (tryEnter s₃ c₃).2 = true) :
    tryEnter s₁ c₁ = (s₁, false) ∧
    (enterAll s₂ cs).2 ≤ 1 ∧
    (enterAll s₂ cs).1.backendCalls ≤ s₂.backendCalls + 1 ∧
    (tryEnter s₃ c₃).1.globalFlag = true ∧
    (tryEnter s₃ c₃).1.instFlag c₃.inst = true ∧
    finallyClear s₄ i o₁ = finallyClear s₄ i o₂ ∧
    (finallyClear s₄ i o₁).globalFlag = false ∧
    (finallyClear s₄ i o₁).instFlag i = false := by
  have hone := enterAll_single s₂ cs h₂
  have henter : (tryEnter s₃ c₃).1.globalFlag = true ∧
      (tryEnter s₃ c₃).1.instFlag c₃.inst = true := by
    rcases tryEnter_cases s₃ c₃ with h | h
    · rw [h] at h₃
      exact Bool.noConfusion h₃
    · exact ⟨h.2.1, h.2.2.1⟩
  refine ⟨tryEnter_guard s₁ c₁ h₁, hone.1, hone.2, henter.1, henter.2, rfl, rfl, ?_⟩
  simp [finallyClear]

/-- Witness for C1: with the global flag set a second caller is refused;
from an idle guard three concurrent callers make one backend call; an
entering caller sets both flags; the `finally` block clears them for both
outcomes. -/
theorem createSession_single_flight_witness :
    (({ globalFlag := true, instFlag := allClear, backendCalls := 1 } : GuardState).globalFlag = true ∨
     ({ globalFlag := true, instFlag := allClear, backendCalls := 1 } : GuardState).instFlag 0 = true) ∧
    ({ globalFlag := false, instFlag := allClear, backendCalls := 0 } : GuardState).globalFlag = false ∧
    (tryEnter { globalFlag := false, instFlag := allClear, backendCalls := 0 }
      { inst := 2, propSessionId := none, stateSessionId := none, isAuthenticated := true }).2 = true ∧
    (tryEnter { globalFlag := true, instFlag := allClear, backendCalls := 1 }
        { inst := 0, propSessionId := none, stateSessionId := none, isAuthenticated := true } =
      ({ globalFlag := true, instFlag := allClear, backendCalls := 1 }, false) ∧
     (enterAll { globalFlag := false, instFlag := allClear, backendCalls := 0 }
        [{ inst := 0, propSessionId := none, stateSessionId := none, isAuthenticated := true },
         { inst := 1, propSessionId := none, stateSessionId := none, isAuthenticated := true },
         { inst := 2, propSessionId := none, stateSessionId := none, isAuthenticated := true }]).2 ≤ 1 ∧
     (enterAll { globalFlag := false, instFlag := allClear, backendCalls := 0 }
        [{ inst := 0, propSessionId := none, stateSessionId := none, isAuthenticated := true },
         { inst := 1, propSessionId := none, stateSessionId := none, isAuthenticated := true },
         { inst := 2, propSessionId := none, stateSessionId := none, isAuthenticated := true }]).1.backendCalls ≤
       ({ globalFlag := false, instFlag := allClear, backendCalls := 0 } : GuardState).backendCalls + 1 ∧
     (tryEnter { globalFlag := false, instFlag := allClear, backendCalls := 0 }
        { inst := 2, propSessionId := none, stateSessionId := none, isAuthenticated := true }).1.globalFlag = true ∧
     (tryEnter { globalFlag := false, instFlag := allClear, backendCalls := 0 }
        { inst := 2, propSessionId := none, stateSessionId := none, isAuthenticated := true }).1.instFlag 2 = true ∧
     finallyClear { globalFlag := true, instFlag := allClear, backendCalls := 1 } 2 true =
       finallyClear { globalFlag := true, instFlag := allClear, backendCalls := 1 } 2 false ∧
     (finallyClear { globalFlag := true, instFlag := allClear, backendCalls := 1 } 2 true).globalFlag = false ∧
     (finallyClear { globalFlag := true, instFlag := allClear, backendCalls := 1 } 2 true).instFlag 2 = false) :=
  ⟨Or.inl rfl, rfl, by decide,
   createSession_single_flight
     { globalFlag := true, instFlag := allClear, backendCalls := 1 }
     { globalFlag := false, instFlag := allClear, backendCalls := 0 }
     { globalFlag := false, instFlag := allClear, backendCalls := 0 }
     { globalFlag := true, instFlag := allClear, backendCalls := 1 }
     { inst := 0, propSessionId := none, stateSessionId := none, isAuthenticated := true }
     { inst := 2, propSessionId := none, stateSessionId := none, isAuthenticated := true }
     [{ inst := 0, propSessionId := none, stateSessionId := none, isAuthenticated := true },
      { inst := 1, propSessionId := none, stateSessionId := none, isAuthenticated := true },
      { inst := 2, propSessionId := none, stateSessionId := none, isAuthenticated := true }]
     2 true false (Or.inl rfl) rfl (by decide)⟩

/-- C9 counterexample: the claim says that an explicit empty session id
makes the resolver skip the persistent store, but the session hook
initializer, given the empty session-id prop and a stored record of the
same user, still restores the stored session id. -/
theorem empty_session_id_counterexample :
    (getInitialSession (some "") true
      (.value { sessionId := some "sess-1", userId := some "u1", isAuthenticated := true })
      (.value { user_id := "u1" })).1.sessionId = some "sess-1" := by decide

/-- C9 (amended): the page-level initializer short-circuits on the
explicit empty session id — whatever the store or the backend hold, it
adopts nothing from memory, store or backend lookup; the session hook
initializer does not itself honor the empty value, so forcing a new
conversation relies on the store being cleared first, after which the
hook yields no session. -/
theorem empty_session_id_short_circuit (stored : Cell StoredSession)
    (backend : BackendFetch) (userCell : Cell UserRecord) :
    initializeSession false true false (some "") stored backend = .skippedNewChat ∧
    (getInitialSession (some "") true .absent userCell).1.sessionId = none := by
  constructor
  · rfl
  · rfl

end Simon
